import Mathlib

/-!
Verification of the economy transaction engine of the `astrbot_plugin_linbot`
repository: a shallow embedding in Lean 4 of the checkin, work, bank,
robbery and ranking managers (`src/game/...`), together with theorems about
the specification's claims.

Modelling conventions:
* SQLite rows become Lean structures; a table is a `List` of rows in
  insertion order; `INSERT OR IGNORE` appends a default row when the key is
  absent; `UPDATE ... WHERE user_id = ?` maps the matching rows.
* Dates (`DATE` columns, `date.today()`) are day numbers (`Nat`);
  datetimes (`CURRENT_TIMESTAMP`, cooldown arithmetic) are abstract integer
  time units (`Int`), monotone in real time.
* Python's `random.randint` / `random.random()` draws are passed in as
  explicit arguments, so every operation is a deterministic function of the
  state, the clock and the draws.
* Python floats used as rates (e.g. `0.001`, `0.02`, `0.5`) are embedded as
  exact integer fractions; `int(x * rate)` becomes truncating integer
  division (`Int.tdiv`, which rounds toward zero like Python's `int`), and
  Python's floor division `//` becomes `Int.fdiv`.
-/

/-! ## Data model (`src/game/init_db.py`) -/

/-- A row of the `users` table (`init_db.py`, `CREATE TABLE users`).
Column defaults: all counters 0, `level` 1, nullable date columns `none`. -/
structure User where
  user_id : String
  username : String
  money : Int
  bank_money : Int
  total_earned : Int
  level : Int
  exp : Int
  last_checkin : Option Nat
  checkin_streak : Int
  total_checkin : Int
  last_work_time : Option Int
  work_count_today : Int
  rob_count_today : Int
  robbed_count_today : Int
deriving Repr, DecidableEq

/-- The row created by `INSERT OR IGNORE INTO users (user_id, username)`:
every other column takes its schema default. -/
def default_user (uid uname : String) : User :=
  { user_id := uid, username := uname, money := 0, bank_money := 0,
    total_earned := 0, level := 1, exp := 0, last_checkin := none,
    checkin_streak := 0, total_checkin := 0, last_work_time := none,
    work_count_today := 0, rob_count_today := 0, robbed_count_today := 0 }

/-- The `transaction_type` values written by `BankManager`. -/
inductive TxType
  | deposit
  | withdraw
  | transfer_in
  | transfer_out
  | interest
deriving Repr, DecidableEq, BEq

/-- A row of `bank_transactions`; `day` is `date(created_at)`. -/
structure BankTransaction where
  user_id : String
  transaction_type : TxType
  amount : Int
  balance_before : Int
  balance_after : Int
  day : Nat
deriving Repr, DecidableEq

/-- A row of `work_records`; `day` is `date(work_time)`. -/
structure WorkRecord where
  user_id : String
  work_type : String
  base_salary : Int
  bonus : Int
  total_earned : Int
  day : Nat
  work_time : Int
deriving Repr, DecidableEq

/-- A row of `checkin_records`. -/
structure CheckinRecord where
  user_id : String
  checkin_date : Nat
  reward_money : Int
  consecutive_days : Int
deriving Repr, DecidableEq

/-- A row of `robbery_records`. -/
structure RobberyRecord where
  robber_id : String
  victim_id : String
  amount : Int
  success : Bool
  created_at : Int
deriving Repr, DecidableEq

/-- The whole database: the `users` table plus the four append-only logs. -/
structure GameState where
  users : List User
  bank_transactions : List BankTransaction
  work_records : List WorkRecord
  checkin_records : List CheckinRecord
  robbery_records : List RobberyRecord
deriving Repr, DecidableEq

/-- Model of `SELECT ... FROM users WHERE user_id = ?` (first matching row). -/
def lookup_user (s : GameState) (uid : String) : Option User :=
  s.users.find? (fun u => u.user_id == uid)

/-- Model of `UPDATE users SET ... WHERE user_id = ?`: apply `f` to matching rows. -/
def GameState.update_user (s : GameState) (uid : String) (f : User → User) :
    GameState :=
  { s with users := s.users.map (fun u => if u.user_id == uid then f u else u) }

/-- The `_ensure_user_exists` helper of the checkin/bank/work managers:
`INSERT OR IGNORE INTO users (user_id, username) VALUES (?, ?)`. -/
def GameState.ensure_user (s : GameState) (uid uname : String) : GameState :=
  if s.users.any (fun u => u.user_id == uid) then s
  else { s with users := s.users ++ [default_user uid uname] }

/-- The `_ensure_user_exists` helper of `robbery_manager.py`, which additionally
refreshes the username when it changed. -/
def GameState.ensure_user_named (s : GameState) (uid uname : String) :
    GameState :=
  if s.users.any (fun u => u.user_id == uid) then
    s.update_user uid
      (fun u => if u.username == uname then u else { u with username := uname })
  else { s with users := s.users ++ [default_user uid uname] }

/-! ## Leveling model (`work_manager.py`, `WorkManager._calculate_level`) -/

/-- Embedding of `WorkManager._calculate_level` (`work_manager.py` lines 371 to 389).
Python `//` is floor division, hence `Int.fdiv`. -/
def calculate_level (exp : Int) : Int :=
  if exp < 500 then max 1 (Int.fdiv exp 100 + 1)
  else if exp < 1500 then 5 + Int.fdiv (exp - 500) 200 + 1
  else if exp < 4000 then 10 + Int.fdiv (exp - 1500) 500 + 1
  else 15 + Int.fdiv (exp - 4000) 1000 + 1

/-- Embedding of `get_level_exp_requirement` inside `WorkManager._get_level_info`
(`work_manager.py` lines 405 to 413): the cumulative experience threshold
at which `level` begins.  This is also exactly the band definition the
specification states for `levelForExperience`. -/
def get_level_exp_requirement (level : Int) : Int :=
  if level ≤ 5 then (level - 1) * 100
  else if level ≤ 10 then 500 + (level - 6) * 200
  else if level ≤ 15 then 1500 + (level - 11) * 500
  else 4000 + (level - 16) * 1000

/-! ## Checkin engine (`src/game/qiandao/checkin_manager.py`) -/

/-- The constant `CheckinManager.base_reward`. -/
def base_reward : Int := 100

/-- The table `CheckinManager.consecutive_bonus`, a Python dict iterated in insertion
order: 3 ↦ 50, 7 ↦ 200, 15 ↦ 500, 30 ↦ 1000. -/
def consecutive_bonus_table : List (Int × Int) :=
  [(3, 50), (7, 200), (15, 500), (30, 1000)]

/-- The loop inside `CheckinManager._calculate_reward` that scans the bonus
dict in insertion order, keeping the bonus of the last threshold reached. -/
def consecutive_bonus_for (consecutive_days : Int) : Int :=
  consecutive_bonus_table.foldl
    (fun acc p => if consecutive_days ≥ p.1 then p.2 else acc) 0

/-- The reward breakdown returned by `_calculate_reward`. -/
structure Reward where
  base : Int
  random : Int
  consecutive : Int
  total : Int
deriving Repr, DecidableEq

/-- Embedding of `CheckinManager._calculate_reward` (lines 153 to 177); `random_bonus`
stands for the `random.randint(0, 50)` draw. -/
def calculate_reward (random_bonus : Int) (consecutive_days : Int) : Reward :=
  { base := base_reward, random := random_bonus,
    consecutive := consecutive_bonus_for consecutive_days,
    total := base_reward + random_bonus + consecutive_bonus_for consecutive_days }

/-- Outcomes of `CheckinManager.daily_checkin`. -/
inductive CheckinResult
  | ok (reward : Reward) (new_money consecutive_days total_checkin : Int)
  | already_checked
  | user_data_error
deriving Repr, DecidableEq

/-- The success tail of `daily_checkin`: credit the reward, set the streak,
bump `total_checkin`, stamp `last_checkin`, append the `checkin_records`
row (lines 111 to 141 of `checkin_manager.py`). -/
def checkin_finalize (s : GameState) (uid : String) (today : Nat) (u : User)
    (random_bonus : Int) (new_streak : Int) : CheckinResult × GameState :=
  let reward := calculate_reward random_bonus new_streak
  let new_money := u.money + reward.total
  let new_total := u.total_checkin + 1
  let s1 := s.update_user uid (fun v =>
    { v with money := new_money, checkin_streak := new_streak,
             total_checkin := new_total, last_checkin := some today })
  let s2 := { s1 with checkin_records := s1.checkin_records ++
    [{ user_id := uid, checkin_date := today, reward_money := reward.total,
       consecutive_days := new_streak }] }
  (.ok reward new_money new_streak new_total, s2)

/-- Embedding of `CheckinManager.daily_checkin` (lines 49 to 151).  `today` is
`date.today()`, `random_bonus` the `randint(0, 50)` draw. -/
def daily_checkin (s : GameState) (uid uname : String) (today : Nat)
    (random_bonus : Int) : CheckinResult × GameState :=
  let s := s.ensure_user uid uname
  if s.checkin_records.any
      (fun r => r.user_id == uid && r.checkin_date == today) then
    (.already_checked, s)
  else
    match lookup_user s uid with
    | none => (.user_data_error, s)
    | some u =>
      match u.last_checkin with
      | none => checkin_finalize s uid today u random_bonus 1
      | some last_date =>
        let days_diff : Int := (today : Int) - (last_date : Int)
        if days_diff = 1 then
          checkin_finalize s uid today u random_bonus (u.checkin_streak + 1)
        else if days_diff = 0 then (.already_checked, s)
        else checkin_finalize s uid today u random_bonus 1

/-! ## Work engine (`src/game/gzrw/work_manager.py`) -/

/-- One entry of `WorkManager.jobs`.  `cooldown_time` is `cooldown_hours`
in abstract time units (one hour = 3600 units). -/
structure JobConfig where
  base_salary : Int
  salary_min : Int
  salary_max : Int
  level_required : Int
  cooldown_time : Int
  exp_reward : Int
deriving Repr, DecidableEq

/-- The static job catalog `WorkManager.jobs` (lines 27 to 100). -/
def jobs : List (String × JobConfig) :=
  [("搬砖", { base_salary := 80, salary_min := 60, salary_max := 120,
              level_required := 1, cooldown_time := 3600, exp_reward := 5 }),
   ("送外卖", { base_salary := 120, salary_min := 80, salary_max := 180,
                level_required := 1, cooldown_time := 3600, exp_reward := 8 }),
   ("便利店员", { base_salary := 150, salary_min := 100, salary_max := 200,
                  level_required := 2, cooldown_time := 7200, exp_reward := 10 }),
   ("快递员", { base_salary := 200, salary_min := 150, salary_max := 280,
                level_required := 3, cooldown_time := 7200, exp_reward := 15 }),
   ("客服代表", { base_salary := 250, salary_min := 180, salary_max := 350,
                  level_required := 5, cooldown_time := 10800, exp_reward := 20 }),
   ("程序员", { base_salary := 500, salary_min := 300, salary_max := 800,
                level_required := 10, cooldown_time := 14400, exp_reward := 50 }),
   ("设计师", { base_salary := 450, salary_min := 280, salary_max := 700,
                level_required := 8, cooldown_time := 14400, exp_reward := 40 }),
   ("金融分析师", { base_salary := 800, salary_min := 500, salary_max := 1200,
                    level_required := 15, cooldown_time := 21600, exp_reward := 80 }),
   ("企业顾问", { base_salary := 1000, salary_min := 600, salary_max := 1500,
                  level_required := 20, cooldown_time := 28800, exp_reward := 100 })]

/-- The `WorkManager` configuration: `work_cooldown_multiplier` and
`work_experience_multiplier` (floats, default 1.0) as exact fractions. -/
structure WorkConfig where
  cooldown_multiplier_num : Int := 1
  cooldown_multiplier_den : Int := 1
  exp_multiplier_num : Int := 1
  exp_multiplier_den : Int := 1
deriving Repr, DecidableEq

/-- The limit `WorkManager.daily_work_limit`: hard-coded to 10 at line 103 (the
constructor assignment from config at line 23 is overwritten). -/
def daily_work_limit : Nat := 10

/-- The breakdown returned by `WorkManager._calculate_salary`.  Note the
source stores the `random.randint` draw in the `base_salary` key. -/
structure SalaryResult where
  base_salary : Int
  level_bonus : Int
  luck_bonus : Int
  luck_triggered : Bool
  total_earned : Int
  exp_reward : Int
deriving Repr, DecidableEq

/-- Embedding of `WorkManager._calculate_salary` (lines 332 to 369): `random_salary` is
the `randint(salary_range)` draw, `lucky` the 10 percent `random.random()`
event.  `int(x * 0.02)` is `tdiv (x * 2) 100`, `int(x * 0.5)` is
`tdiv x 2`. -/
def calculate_salary (wcfg : WorkConfig) (jc : JobConfig) (user_level : Int)
    (random_salary : Int) (lucky : Bool) : SalaryResult :=
  let level_bonus := Int.tdiv (jc.base_salary * (user_level - 1) * 2) 100
  let luck_bonus := if lucky then Int.tdiv random_salary 2 else 0
  { base_salary := random_salary, level_bonus := level_bonus,
    luck_bonus := luck_bonus, luck_triggered := lucky,
    total_earned := random_salary + level_bonus + luck_bonus,
    exp_reward := Int.tdiv (jc.exp_reward * wcfg.exp_multiplier_num)
      wcfg.exp_multiplier_den }

/-- Outcomes of `WorkManager.work`. -/
inductive WorkResult
  | ok (salary : SalaryResult) (new_money new_exp new_level : Int)
      (level_up : Bool) (today_work_count : Nat)
  | unknown_job
  | user_data_error
  | level_too_low
  | daily_limit_reached
  | on_cooldown
deriving Repr, DecidableEq

/-- Number of this user's `work_records` rows dated `day`
(`SELECT COUNT(*) ... WHERE user_id = ? AND date(work_time) = ?`). -/
def today_work_count (s : GameState) (uid : String) (day : Nat) : Nat :=
  (s.work_records.filter (fun r => r.user_id == uid && r.day == day)).length

/-- Embedding of `WorkManager.work` (lines 200 to 330).  The per-job cooldown check
`now < last + hours * multiplier` is cross-multiplied so it stays exact
integer arithmetic. -/
def work (wcfg : WorkConfig) (s : GameState) (uid uname job_name : String)
    (day : Nat) (now : Int) (random_salary : Int) (lucky : Bool) :
    WorkResult × GameState :=
  let s := s.ensure_user uid uname
  match jobs.find? (fun j => j.1 == job_name) with
  | none => (.unknown_job, s)
  | some job =>
    match lookup_user s uid with
    | none => (.user_data_error, s)
    | some u =>
      if u.level < job.2.level_required then (.level_too_low, s)
      else if daily_work_limit ≤ today_work_count s uid day then
        (.daily_limit_reached, s)
      else
        let last_work := (s.work_records.filter
          (fun r => r.user_id == uid && r.work_type == job_name)).getLast?
        let blocked : Bool :=
          match last_work with
          | some r => decide ((now - r.work_time) * wcfg.cooldown_multiplier_den <
              job.2.cooldown_time * wcfg.cooldown_multiplier_num)
          | none => false
        if blocked then (.on_cooldown, s)
        else
          let salary := calculate_salary wcfg job.2 u.level random_salary lucky
          let new_money := u.money + salary.total_earned
          let new_exp := u.exp + salary.exp_reward
          let new_level := calculate_level new_exp
          let s1 := s.update_user uid (fun v =>
            { v with money := new_money, exp := new_exp, level := new_level,
                     last_work_time := some now,
                     total_earned := v.total_earned + salary.total_earned })
          let s2 := { s1 with work_records := s1.work_records ++
            [{ user_id := uid, work_type := job_name,
               base_salary := salary.base_salary,
               bonus := salary.level_bonus + salary.luck_bonus,
               total_earned := salary.total_earned, day := day,
               work_time := now }] }
          (.ok salary new_money new_exp new_level
            (decide (u.level < new_level)) (today_work_count s uid day + 1), s2)

/-! ## Bank engine (`src/game/bank/bank_manager.py`) -/

/-- The `BankManager` limits and rates (constructor, lines 22 to 30).  The
interest rates are `bank_interest_rate / 100` (default 0.1, so 1/1000) and
`bank_vip_interest_rate / 100` (default 0.15, so 3/2000), kept as exact
fractions. -/
structure BankConfig where
  min_deposit : Int := 10
  max_deposit : Int := 100000
  min_withdraw : Int := 10
  max_withdraw : Int := 50000
  daily_withdraw_limit : Int := 200000
  interest_rate_num : Int := 1
  interest_rate_den : Int := 1000
  vip_threshold : Int := 10000
  vip_interest_rate_num : Int := 3
  vip_interest_rate_den : Int := 2000
deriving Repr, DecidableEq

/-- Outcomes of the bank operations. -/
inductive BankResult
  | ok (amount new_money new_bank_money : Int)
  | transfer_ok (amount new_from_balance new_to_balance : Int)
  | below_minimum
  | above_maximum
  | insufficient_cash
  | insufficient_savings
  | daily_limit_exceeded (today_withdraw remaining : Int)
  | self_transfer
  | recipient_not_found
  | user_data_error
deriving Repr, DecidableEq

/-- Embedding of `BankManager.deposit` (lines 50 to 134). -/
def deposit (cfg : BankConfig) (s : GameState) (uid uname : String)
    (amount : Int) (day : Nat) : BankResult × GameState :=
  let s := s.ensure_user uid uname
  if amount < cfg.min_deposit then (.below_minimum, s)
  else if amount > cfg.max_deposit then (.above_maximum, s)
  else
    match lookup_user s uid with
    | none => (.user_data_error, s)
    | some u =>
      if u.money < amount then (.insufficient_cash, s)
      else
        let new_money := u.money - amount
        let new_bank_money := u.bank_money + amount
        let s1 := s.update_user uid (fun v =>
          { v with money := new_money, bank_money := new_bank_money })
        let s2 := { s1 with bank_transactions := s1.bank_transactions ++
          [{ user_id := uid, transaction_type := .deposit, amount := amount,
             balance_before := u.bank_money, balance_after := new_bank_money,
             day := day }] }
        (.ok amount new_money new_bank_money, s2)

/-- Model of `SELECT SUM(amount) ... transaction_type = 'withdraw' AND
date(created_at) = today` (the daily-limit scan of `withdraw`). -/
def today_withdraw_sum (s : GameState) (uid : String) (day : Nat) : Int :=
  ((s.bank_transactions.filter (fun t =>
      t.user_id == uid && t.transaction_type == TxType.withdraw &&
      t.day == day)).map (fun t => t.amount)).sum

/-- Embedding of `BankManager.withdraw` (lines 136 to 239). -/
def withdraw (cfg : BankConfig) (s : GameState) (uid uname : String)
    (amount : Int) (day : Nat) : BankResult × GameState :=
  let s := s.ensure_user uid uname
  if amount < cfg.min_withdraw then (.below_minimum, s)
  else if amount > cfg.max_withdraw then (.above_maximum, s)
  else
    let today_withdraw := today_withdraw_sum s uid day
    if today_withdraw + amount > cfg.daily_withdraw_limit then
      (.daily_limit_exceeded today_withdraw
        (cfg.daily_withdraw_limit - today_withdraw), s)
    else
      match lookup_user s uid with
      | none => (.user_data_error, s)
      | some u =>
        if u.bank_money < amount then (.insufficient_savings, s)
        else
          let new_money := u.money + amount
          let new_bank_money := u.bank_money - amount
          let s1 := s.update_user uid (fun v =>
            { v with money := new_money, bank_money := new_bank_money })
          let s2 := { s1 with bank_transactions := s1.bank_transactions ++
            [{ user_id := uid, transaction_type := .withdraw, amount := amount,
               balance_before := u.bank_money, balance_after := new_bank_money,
               day := day }] }
          (.ok amount new_money new_bank_money, s2)

/-- Embedding of `BankManager.transfer` (lines 337 to 445).  Note the source calls
`_ensure_user_exists` on BOTH parties (lines 367 to 368) before looking the
recipient up, so the `to_user is None` branch cannot fire. -/
def transfer (cfg : BankConfig) (s : GameState)
    (from_user_id to_user_id from_username to_username : String)
    (amount : Int) (day : Nat) : BankResult × GameState :=
  if from_user_id == to_user_id then (.self_transfer, s)
  else if amount < cfg.min_deposit then (.below_minimum, s)
  else if amount > cfg.max_deposit then (.above_maximum, s)
  else
    let s := (s.ensure_user from_user_id from_username).ensure_user
      to_user_id to_username
    match lookup_user s from_user_id with
    | none => (.insufficient_savings, s)
    | some fu =>
      if fu.bank_money < amount then (.insufficient_savings, s)
      else
        match lookup_user s to_user_id with
        | none => (.recipient_not_found, s)
        | some tu =>
          let new_from_balance := fu.bank_money - amount
          let new_to_balance := tu.bank_money + amount
          let s1 := s.update_user from_user_id
            (fun v => { v with bank_money := new_from_balance })
          let s2 := s1.update_user to_user_id
            (fun v => { v with bank_money := new_to_balance })
          let s3 := { s2 with bank_transactions := s2.bank_transactions ++
            [{ user_id := from_user_id, transaction_type := .transfer_out,
               amount := amount, balance_before := fu.bank_money,
               balance_after := new_from_balance, day := day },
             { user_id := to_user_id, transaction_type := .transfer_in,
               amount := amount, balance_before := tu.bank_money,
               balance_after := new_to_balance, day := day }] }
          (.transfer_ok amount new_from_balance new_to_balance, s3)

/-- The body of the per-user loop of `BankManager.apply_daily_interest`
(lines 467 to 493): VIP-or-base rate, `interest = int(bank_money * rate)`,
credited with one interest transaction when positive. -/
def accrue_user (cfg : BankConfig) (day : Nat) (u : User) :
    User × Option BankTransaction :=
  if u.bank_money > 0 then
    let is_vip := u.bank_money ≥ cfg.vip_threshold
    let num := if is_vip then cfg.vip_interest_rate_num else cfg.interest_rate_num
    let den := if is_vip then cfg.vip_interest_rate_den else cfg.interest_rate_den
    let interest := Int.tdiv (u.bank_money * num) den
    if interest > 0 then
      let new_bank_money := u.bank_money + interest
      ({ u with bank_money := new_bank_money },
       some { user_id := u.user_id, transaction_type := .interest,
              amount := interest, balance_before := u.bank_money,
              balance_after := new_bank_money, day := day })
    else (u, none)
  else (u, none)

/-- Embedding of `BankManager.apply_daily_interest` (lines 447 to 510): processes every
account (those without deposits are untouched), returning the processed
count and the total interest disbursed. -/
def apply_daily_interest (cfg : BankConfig) (s : GameState) (day : Nat) :
    GameState × Nat × Int :=
  let processed := s.users.map (accrue_user cfg day)
  let new_tx := processed.filterMap Prod.snd
  ({ s with users := processed.map Prod.fst,
            bank_transactions := s.bank_transactions ++ new_tx },
   new_tx.length, (new_tx.map (fun t => t.amount)).sum)

/-! ## Robbery engine (`src/game/qiangjie/robbery_manager.py`) -/

/-- The `RobberyManager` configuration (constructor, lines 22 to 28); the
success rate only enters through the Boolean draw, `cooldown_time` is
`robbery_cooldown_hours` (default 6.0) in abstract units. -/
structure RobberyConfig where
  min_amount : Int := 50
  max_amount : Int := 300
  cooldown_time : Int := 21600
  level_requirement : Int := 5
  protection_amount : Int := 100
  failure_penalty : Int := 20
deriving Repr, DecidableEq

/-- Outcomes of `RobberyManager.rob_user`; `done` is the committed outcome
(the source reports it with `success: True` and a `robbery_success` flag,
with `amount` 0 on a failed attempt). -/
inductive RobResult
  | done (robbery_success : Bool) (amount : Int)
  | self_target
  | robber_data_error
  | level_too_low
  | on_cooldown
  | victim_not_found
  | victim_protected
deriving Repr, DecidableEq

/-- The cap `max_rob_amount` of the success branch (line 145):
`min(self.max_amount, victim_money - self.protection_amount)`. -/
def rob_cap (cfg : RobberyConfig) (victim_money : Int) : Int :=
  min cfg.max_amount (victim_money - cfg.protection_amount)

/-- Embedding of `RobberyManager.rob_user` (lines 55 to 220).  `draw_success` is the
`random.random() < success_rate` draw; `rand_fn lo hi` is the
`random.randint(lo, hi)` draw used in the success branch. -/
def rob_user (cfg : RobberyConfig) (s : GameState)
    (robber_id robber_name victim_id victim_name : String)
    (now : Int) (draw_success : Bool) (rand_fn : Int → Int → Int) :
    RobResult × GameState :=
  let s := (s.ensure_user_named robber_id robber_name).ensure_user_named
    victim_id victim_name
  if robber_id == victim_id then (.self_target, s)
  else
    match lookup_user s robber_id with
    | none => (.robber_data_error, s)
    | some robber =>
      if robber.level < cfg.level_requirement then (.level_too_low, s)
      else
        let last_robbery := (s.robbery_records.filter
          (fun r => r.robber_id == robber_id)).getLast?
        let blocked : Bool :=
          match last_robbery with
          | some r => decide (now < r.created_at + cfg.cooldown_time)
          | none => false
        if blocked then (.on_cooldown, s)
        else
          match lookup_user s victim_id with
          | none => (.victim_not_found, s)
          | some victim =>
            if victim.money < cfg.protection_amount then (.victim_protected, s)
            else if draw_success then
              let max_rob_amount := rob_cap cfg victim.money
              let rob_amount :=
                if max_rob_amount < cfg.min_amount then max_rob_amount
                else rand_fn cfg.min_amount max_rob_amount
              let new_robber_money := robber.money + rob_amount
              let new_victim_money := victim.money - rob_amount
              let s1 := s.update_user robber_id (fun v =>
                { v with money := new_robber_money,
                         rob_count_today := v.rob_count_today + 1 })
              let s2 := s1.update_user victim_id (fun v =>
                { v with money := new_victim_money,
                         robbed_count_today := v.robbed_count_today + 1 })
              let s3 := { s2 with robbery_records := s2.robbery_records ++
                [{ robber_id := robber_id, victim_id := victim_id,
                   amount := rob_amount, success := true, created_at := now }] }
              (.done true rob_amount, s3)
            else
              let penalty_amount := min cfg.failure_penalty robber.money
              let new_robber_money := robber.money - penalty_amount
              let new_victim_money := victim.money + penalty_amount
              let s1 := s.update_user robber_id (fun v =>
                { v with money := new_robber_money,
                         rob_count_today := v.rob_count_today + 1 })
              let s2 := s1.update_user victim_id (fun v =>
                { v with money := new_victim_money,
                         robbed_count_today := v.robbed_count_today + 1 })
              let s3 := { s2 with robbery_records := s2.robbery_records ++
                [{ robber_id := robber_id, victim_id := victim_id,
                   amount := penalty_amount, success := false,
                   created_at := now }] }
              (.done false 0, s3)

/-! ## Ranking engine (`src/game/phb/ranking_manager.py`) -/

/-- Insert into a descending-sorted list, after every row whose key is
strictly greater and before equal keys encountered so far are passed; used
to realize SQLite's `ORDER BY field DESC`, whose order among ties the
source query leaves to the scan order of the table. -/
def insert_desc (le_key : User → User → Bool) (u : User) :
    List User → List User
  | [] => [u]
  | v :: vs =>
    if le_key v u then u :: v :: vs else v :: insert_desc le_key u vs

/-- Stable descending sort by `le_key` (`le_key v u` reads: the key of `v`
is at most the key of `u`): rows with equal keys keep table order. -/
def sort_desc (le_key : User → User → Bool) (l : List User) : List User :=
  l.foldr (insert_desc le_key) []

/-- Comparison realizing `ORDER BY key DESC` for an integer metric. -/
def metric_le (key : User → Int) (v u : User) : Bool := decide (key v ≤ key u)

/-- Comparison realizing `ORDER BY level DESC, exp DESC`. -/
def level_le (v u : User) : Bool :=
  decide (v.level < u.level ∨ (v.level = u.level ∧ v.exp ≤ u.exp))

/-- The metric column of `RankingManager.ranking_types` for the four plain
ranking types (`money`, `assets` = money + bank_money, `earned`,
`checkin`). -/
def ranking_key (ranking_type : String) : Option (User → Int) :=
  if ranking_type == "money" then some (fun u => u.money)
  else if ranking_type == "assets" then some (fun u => u.money + u.bank_money)
  else if ranking_type == "earned" then some (fun u => u.total_earned)
  else if ranking_type == "checkin" then some (fun u => u.total_checkin)
  else none

/-- Embedding of `RankingManager.get_ranking_data` (lines 91 to 179), reduced to the
ordered rows it returns: filter `field > 0`, `ORDER BY field DESC` (for
`level`: `ORDER BY level DESC, exp DESC` over `exp > 0`), `LIMIT n`.
The queries carry no further `ORDER BY` term, so ties keep table order. -/
def get_ranking_data (s : GameState) (ranking_type : String) (limit : Nat) :
    Option (List User) :=
  if ranking_type == "level" then
    some ((sort_desc level_le
      (s.users.filter (fun u => decide (0 < u.exp)))).take limit)
  else
    match ranking_key ranking_type with
    | some key =>
      some ((sort_desc (metric_le key)
        (s.users.filter (fun u => decide (0 < key u)))).take limit)
    | none => none
/-! ## The engine as a transition system over operation sequences -/

/-- The whole engine configuration with the source defaults. -/
structure EngineConfig where
  bank : BankConfig := {}
  robbery : RobberyConfig := {}
  work_cfg : WorkConfig := {}

/-- The source-default configuration. -/
def default_config : EngineConfig := {}

/-- One engine invocation, with its clock values and random draws. -/
inductive Op
  | checkin_op (uid uname : String) (today : Nat) (random_bonus : Int)
  | work_op (uid uname job_name : String) (day : Nat) (now : Int)
      (random_salary : Int) (lucky : Bool)
  | deposit_op (uid uname : String) (amount : Int) (day : Nat)
  | withdraw_op (uid uname : String) (amount : Int) (day : Nat)
  | transfer_op (from_user_id to_user_id from_username to_username : String)
      (amount : Int) (day : Nat)
  | rob_op (robber_id robber_name victim_id victim_name : String) (now : Int)
      (draw_success : Bool) (rand_fn : Int → Int → Int)
  | interest_op (day : Nat)

/-- The state reached by one engine invocation. -/
def step (cfg : EngineConfig) (s : GameState) : Op → GameState
  | .checkin_op uid uname today rb => (daily_checkin s uid uname today rb).2
  | .work_op uid uname job day now rs lucky =>
    (work cfg.work_cfg s uid uname job day now rs lucky).2
  | .deposit_op uid uname amount day => (deposit cfg.bank s uid uname amount day).2
  | .withdraw_op uid uname amount day => (withdraw cfg.bank s uid uname amount day).2
  | .transfer_op f t fn tn amount day => (transfer cfg.bank s f t fn tn amount day).2
  | .rob_op rid rn vid vn now draw rf => (rob_user cfg.robbery s rid rn vid vn now draw rf).2
  | .interest_op day => (apply_daily_interest cfg.bank s day).1

/-- Run a sequence of engine invocations. -/
def run_ops (cfg : EngineConfig) (s : GameState) (ops : List Op) : GameState :=
  ops.foldl (step cfg) s

/-- A faithful `random.randint`: the draw lies in the requested interval. -/
def valid_rand_fn (rand_fn : Int → Int → Int) : Prop :=
  ∀ lo hi : Int, lo ≤ hi → lo ≤ rand_fn lo hi ∧ rand_fn lo hi ≤ hi

/-- The random draws recorded in an `Op` are ones the source's `random`
calls can actually produce. -/
def Op.valid : Op → Prop
  | .checkin_op _ _ _ rb => 0 ≤ rb ∧ rb ≤ 50
  | .work_op _ _ job _ _ rs _ =>
    match jobs.find? (fun j => j.1 == job) with
    | some j => j.2.salary_min ≤ rs ∧ rs ≤ j.2.salary_max
    | none => True
  | .rob_op _ _ _ _ _ _ rf => valid_rand_fn rf
  | _ => True

/-- Sign conditions on the tunable configuration values; the source
defaults satisfy all of them. -/
def config_ok (cfg : EngineConfig) : Prop :=
  0 ≤ cfg.bank.min_deposit ∧ 0 ≤ cfg.bank.min_withdraw ∧
  0 ≤ cfg.bank.interest_rate_num ∧ 0 < cfg.bank.interest_rate_den ∧
  0 ≤ cfg.bank.vip_interest_rate_num ∧ 0 < cfg.bank.vip_interest_rate_den ∧
  0 ≤ cfg.robbery.min_amount ∧ 0 ≤ cfg.robbery.max_amount ∧
  0 ≤ cfg.robbery.protection_amount ∧ 0 ≤ cfg.robbery.failure_penalty

/-- The invariant of section 8 of the specification: every account has
nonnegative cash and savings. -/
def balances_nonneg (s : GameState) : Prop :=
  ∀ u ∈ s.users, 0 ≤ u.money ∧ 0 ≤ u.bank_money

theorem lookup_user_mem {s : GameState} {uid : String} {u : User}
    (h : lookup_user s uid = some u) : u ∈ s.users :=
  List.mem_of_find?_eq_some h

theorem balances_nonneg_update_user {s : GameState} {uid : String}
    {f : User → User} (h : balances_nonneg s)
    (hf : ∀ v ∈ s.users, 0 ≤ v.money → 0 ≤ v.bank_money →
      0 ≤ (f v).money ∧ 0 ≤ (f v).bank_money) :
    balances_nonneg (s.update_user uid f) := by
  intro u hu
  simp only [GameState.update_user, List.mem_map] at hu
  obtain ⟨v, hv, rfl⟩ := hu
  by_cases hc : (v.user_id == uid) = true
  · simp only [hc, if_true]
    exact hf v hv (h v hv).1 (h v hv).2
  · simp only [hc, if_false]
    exact h v hv

theorem balances_nonneg_ensure_user {s : GameState} {uid uname : String}
    (h : balances_nonneg s) : balances_nonneg (s.ensure_user uid uname) := by
  unfold GameState.ensure_user
  split
  · exact h
  · intro u hu
    simp only [List.mem_append, List.mem_singleton] at hu
    rcases hu with hu | rfl
    · exact h u hu
    · exact ⟨le_refl 0, le_refl 0⟩

theorem balances_nonneg_ensure_user_named {s : GameState} {uid uname : String}
    (h : balances_nonneg s) : balances_nonneg (s.ensure_user_named uid uname) := by
  unfold GameState.ensure_user_named
  split
  · refine balances_nonneg_update_user h (fun v hv hm hb => ?_)
    split
    · exact ⟨hm, hb⟩
    · exact ⟨hm, hb⟩
  · intro u hu
    simp only [List.mem_append, List.mem_singleton] at hu
    rcases hu with hu | rfl
    · exact h u hu
    · exact ⟨le_refl 0, le_refl 0⟩

theorem consecutive_bonus_for_nonneg (d : Int) : 0 ≤ consecutive_bonus_for d := by
  unfold consecutive_bonus_for consecutive_bonus_table
  simp only [List.foldl]
  split_ifs <;> norm_num
theorem deposit_preserves_nonneg (cfg : BankConfig) (hmin : 0 ≤ cfg.min_deposit)
    (s : GameState) (uid uname : String) (amount : Int) (day : Nat)
    (h : balances_nonneg s) :
    balances_nonneg (deposit cfg s uid uname amount day).2 := by
  have h1 : balances_nonneg (s.ensure_user uid uname) :=
    balances_nonneg_ensure_user h
  simp only [deposit]
  split
  · exact h1
  · split
    · exact h1
    · split
      · exact h1
      · next u heq =>
        split
        · exact h1
        · next hc3 =>
          refine balances_nonneg_update_user h1 (fun v hv hm hb => ?_)
          have hu := h1 u (lookup_user_mem heq)
          refine ⟨?_, ?_⟩ <;> simp only [] <;> omega

theorem withdraw_preserves_nonneg (cfg : BankConfig)
    (hmin : 0 ≤ cfg.min_withdraw)
    (s : GameState) (uid uname : String) (amount : Int) (day : Nat)
    (h : balances_nonneg s) :
    balances_nonneg (withdraw cfg s uid uname amount day).2 := by
  have h1 : balances_nonneg (s.ensure_user uid uname) :=
    balances_nonneg_ensure_user h
  simp only [withdraw]
  split
  · exact h1
  · split
    · exact h1
    · split
      · exact h1
      · split
        · exact h1
        · next u heq =>
          split
          · exact h1
          · next hc3 =>
            refine balances_nonneg_update_user h1 (fun v hv hm hb => ?_)
            have hu := h1 u (lookup_user_mem heq)
            refine ⟨?_, ?_⟩ <;> simp only [] <;> omega
theorem transfer_preserves_nonneg (cfg : BankConfig)
    (hmin : 0 ≤ cfg.min_deposit)
    (s : GameState) (fid tid fn tn : String) (amount : Int) (day : Nat)
    (h : balances_nonneg s) :
    balances_nonneg (transfer cfg s fid tid fn tn amount day).2 := by
  have h1 : balances_nonneg ((s.ensure_user fid fn).ensure_user tid tn) :=
    balances_nonneg_ensure_user (balances_nonneg_ensure_user h)
  simp only [transfer]
  split
  · exact h
  · split
    · exact h
    · split
      · exact h
      · split
        · exact h1
        · next fu hfeq =>
          split
          · exact h1
          · next hfu =>
            split
            · exact h1
            · next tu hteq =>
              have hfum := h1 fu (lookup_user_mem hfeq)
              have htum := h1 tu (lookup_user_mem hteq)
              refine balances_nonneg_update_user
                (balances_nonneg_update_user h1 (fun v hv hm hb => ?_))
                (fun v hv hm hb => ?_)
              · refine ⟨?_, ?_⟩ <;> simp only [] <;> omega
              · refine ⟨?_, ?_⟩ <;> simp only [] <;> omega

theorem rob_preserves_nonneg (cfg : RobberyConfig)
    (hminr : 0 ≤ cfg.min_amount) (hmaxr : 0 ≤ cfg.max_amount)
    (hprot : 0 ≤ cfg.protection_amount) (hpen : 0 ≤ cfg.failure_penalty)
    (s : GameState) (rid rn vid vn : String) (now : Int) (draw : Bool)
    (rf : Int → Int → Int) (hrf : valid_rand_fn rf)
    (h : balances_nonneg s) :
    balances_nonneg (rob_user cfg s rid rn vid vn now draw rf).2 := by
  have h1 : balances_nonneg
      ((s.ensure_user_named rid rn).ensure_user_named vid vn) :=
    balances_nonneg_ensure_user_named (balances_nonneg_ensure_user_named h)
  simp only [rob_user]
  split
  · exact h1
  · split
    · exact h1
    · next robber hreq =>
      split
      · exact h1
      · split
        · exact h1
        · split
          · exact h1
          · next victim hveq =>
            split
            · exact h1
            · next hprot2 =>
              have hrm := h1 robber (lookup_user_mem hreq)
              have hvm := h1 victim (lookup_user_mem hveq)
              have hcaple : rob_cap cfg victim.money ≤
                  victim.money - cfg.protection_amount := min_le_right _ _
              have hcapnn : 0 ≤ rob_cap cfg victim.money := by
                unfold rob_cap; omega
              have hbound : 0 ≤ (if rob_cap cfg victim.money < cfg.min_amount
                    then rob_cap cfg victim.money
                    else rf cfg.min_amount (rob_cap cfg victim.money)) ∧
                  (if rob_cap cfg victim.money < cfg.min_amount
                    then rob_cap cfg victim.money
                    else rf cfg.min_amount (rob_cap cfg victim.money)) ≤
                    rob_cap cfg victim.money := by
                split
                · exact ⟨hcapnn, le_refl _⟩
                · next hge =>
                  have hr := hrf cfg.min_amount (rob_cap cfg victim.money)
                    (not_lt.mp hge)
                  exact ⟨le_trans hminr hr.1, hr.2⟩
              split
              · refine balances_nonneg_update_user
                  (balances_nonneg_update_user h1 (fun v hv hm hb => ?_))
                  (fun v hv hm hb => ?_)
                · refine ⟨?_, ?_⟩ <;> simp only [] <;> omega
                · refine ⟨?_, ?_⟩ <;> simp only [] <;> omega
              · refine balances_nonneg_update_user
                  (balances_nonneg_update_user h1 (fun v hv hm hb => ?_))
                  (fun v hv hm hb => ?_)
                · refine ⟨?_, ?_⟩ <;> simp only [] <;> omega
                · refine ⟨?_, ?_⟩ <;> simp only [] <;> omega
theorem checkin_finalize_preserves_nonneg (s : GameState) (uid : String)
    (today : Nat) (u : User) (rb ns : Int) (h : balances_nonneg s)
    (hrb : 0 ≤ rb) (hu : 0 ≤ u.money) :
    balances_nonneg (checkin_finalize s uid today u rb ns).2 := by
  simp only [checkin_finalize]
  have hcb := consecutive_bonus_for_nonneg ns
  refine balances_nonneg_update_user h (fun v hv hm hb => ?_)
  refine ⟨?_, ?_⟩ <;> simp only [calculate_reward, base_reward] <;> omega

theorem checkin_preserves_nonneg (s : GameState) (uid uname : String)
    (today : Nat) (rb : Int) (hrb : 0 ≤ rb) (h : balances_nonneg s) :
    balances_nonneg (daily_checkin s uid uname today rb).2 := by
  have h1 : balances_nonneg (s.ensure_user uid uname) :=
    balances_nonneg_ensure_user h
  simp only [daily_checkin]
  split
  · exact h1
  · split
    · exact h1
    · next u heq =>
      have hu := h1 u (lookup_user_mem heq)
      split
      · exact checkin_finalize_preserves_nonneg _ _ _ _ _ _ h1 hrb hu.1
      · split
        · exact checkin_finalize_preserves_nonneg _ _ _ _ _ _ h1 hrb hu.1
        · split
          · exact h1
          · exact checkin_finalize_preserves_nonneg _ _ _ _ _ _ h1 hrb hu.1

theorem jobs_catalog_pos :
    ∀ j ∈ jobs, 0 < j.2.salary_min ∧ 0 < j.2.base_salary ∧
      1 ≤ j.2.level_required := by decide

theorem work_preserves_nonneg (wcfg : WorkConfig) (s : GameState)
    (uid uname job_name : String) (day : Nat) (now : Int)
    (rs : Int) (lucky : Bool)
    (hval : match jobs.find? (fun j => j.1 == job_name) with
      | some j => j.2.salary_min ≤ rs ∧ rs ≤ j.2.salary_max
      | none => True)
    (h : balances_nonneg s) :
    balances_nonneg (work wcfg s uid uname job_name day now rs lucky).2 := by
  have h1 : balances_nonneg (s.ensure_user uid uname) :=
    balances_nonneg_ensure_user h
  simp only [work]
  split
  · exact h1
  · next job hjeq =>
    simp only [hjeq] at hval
    split
    · exact h1
    · next u heq =>
      split
      · exact h1
      · next hlev =>
        split
        · exact h1
        · split
          · exact h1
          · have hu := h1 u (lookup_user_mem heq)
            obtain ⟨hj1, hj2, hj3⟩ :=
              jobs_catalog_pos job (List.mem_of_find?_eq_some hjeq)
            have hrs : 0 ≤ rs := le_trans (le_of_lt hj1) hval.1
            have hlb : 0 ≤ Int.tdiv (job.2.base_salary * (u.level - 1) * 2) 100 :=
              Int.tdiv_nonneg
                (mul_nonneg (mul_nonneg (le_of_lt hj2) (by omega)) (by norm_num))
                (by norm_num)
            have hluck : 0 ≤ (if lucky then Int.tdiv rs 2 else 0) := by
              split
              · exact Int.tdiv_nonneg hrs (by norm_num)
              · exact le_refl 0
            refine balances_nonneg_update_user h1 (fun v hv hm hb => ?_)
            refine ⟨?_, ?_⟩ <;> simp only [calculate_salary] <;> omega

theorem interest_preserves_nonneg (cfg : BankConfig) (s : GameState)
    (day : Nat) (h : balances_nonneg s) :
    balances_nonneg (apply_daily_interest cfg s day).1 := by
  intro u hu
  simp only [apply_daily_interest, List.map_map, List.mem_map] at hu
  obtain ⟨v, hv, rfl⟩ := hu
  have hvn := h v hv
  obtain ⟨hv1, hv2⟩ := hvn
  simp only [Function.comp_apply, accrue_user]
  split
  · split
    · split
      · next hint => refine ⟨hv1, ?_⟩; simp only []; omega
      · exact ⟨hv1, hv2⟩
    · split
      · next hint => refine ⟨hv1, ?_⟩; simp only []; omega
      · exact ⟨hv1, hv2⟩
  · exact ⟨hv1, hv2⟩

theorem step_preserves_nonneg (cfg : EngineConfig) (hcfg : config_ok cfg)
    (s : GameState) (op : Op) (hop : op.valid) (h : balances_nonneg s) :
    balances_nonneg (step cfg s op) := by
  obtain ⟨hc1, hc2, hc3, hc4, hc5, hc6, hc7, hc8, hc9, hc10⟩ := hcfg
  cases op with
  | checkin_op uid uname today rb =>
    exact checkin_preserves_nonneg s uid uname today rb hop.1 h
  | work_op uid uname job day now rs lucky =>
    exact work_preserves_nonneg cfg.work_cfg s uid uname job day now rs lucky hop h
  | deposit_op uid uname amount day =>
    exact deposit_preserves_nonneg cfg.bank hc1 s uid uname amount day h
  | withdraw_op uid uname amount day =>
    exact withdraw_preserves_nonneg cfg.bank hc2 s uid uname amount day h
  | transfer_op fid tid fn tn amount day =>
    exact transfer_preserves_nonneg cfg.bank hc1 s fid tid fn tn amount day h
  | rob_op rid rn vid vn now draw rf =>
    exact rob_preserves_nonneg cfg.robbery hc7 hc8 hc9 hc10 s rid rn vid vn
      now draw rf hop h
  | interest_op day =>
    exact interest_preserves_nonneg cfg.bank s day h

theorem run_ops_preserves_nonneg (cfg : EngineConfig) (hcfg : config_ok cfg)
    (ops : List Op) (hops : ∀ op ∈ ops, op.valid) (s : GameState)
    (h : balances_nonneg s) : balances_nonneg (run_ops cfg s ops) := by
  induction ops generalizing s with
  | nil => exact h
  | cons op rest ih =>
    exact ih (fun o ho => hops o (List.mem_cons_of_mem _ ho)) _
      (step_preserves_nonneg cfg hcfg s op (hops op (List.mem_cons_self _ _)) h)
/-! ## Supporting lemmas about lookups, updates and the ranking sort -/

theorem exists_user_of_lookup {s : GameState} {uid : String} {u : User}
    (h : lookup_user s uid = some u) :
    s.users.any (fun v => v.user_id == uid) = true := by
  unfold lookup_user at h
  have hp := List.find?_some h
  exact List.any_eq_true.mpr ⟨u, List.mem_of_find?_eq_some h, hp⟩

theorem ensure_user_of_exists {s : GameState} {uid : String} (uname : String)
    (h : s.users.any (fun v => v.user_id == uid) = true) :
    s.ensure_user uid uname = s := by
  unfold GameState.ensure_user
  rw [if_pos h]

theorem lookup_none_not_exists {s : GameState} {uid : String}
    (h : lookup_user s uid = none) :
    s.users.any (fun v => v.user_id == uid) = false := by
  unfold lookup_user at h
  rw [List.find?_eq_none] at h
  exact List.any_eq_false.mpr h

theorem find?_pred_stable {α : Type} (p : α → Bool) (g : α → α)
    (hg : ∀ x, p (g x) = p x) (l : List α) :
    (l.map g).find? p = (l.find? p).map g := by
  induction l with
  | nil => rfl
  | cons x xs ih =>
    simp only [List.map_cons]
    cases hpx : p x with
    | true => simp [List.find?_cons, hg, hpx]
    | false => simp [List.find?_cons, hg, hpx, ih]

theorem lookup_user_update_user (s : GameState) (uid' : String)
    (f : User → User) (uid : String) (hf : ∀ v, (f v).user_id = v.user_id) :
    lookup_user (s.update_user uid' f) uid =
      (lookup_user s uid).map
        (fun v => if v.user_id == uid' then f v else v) := by
  unfold lookup_user GameState.update_user
  exact find?_pred_stable _ _
    (fun v => by by_cases hv : (v.user_id == uid') = true <;> simp [hv, hf]) _

theorem any_pred_stable {α : Type} (p : α → Bool) (g : α → α)
    (hg : ∀ x, p (g x) = p x) (l : List α) :
    (l.map g).any p = l.any p := by
  induction l with
  | nil => rfl
  | cons x xs ih => simp [List.any_cons, hg, ih]

theorem any_id_update_user (s : GameState) (uid' : String) (f : User → User)
    (uid : String) (hf : ∀ v, (f v).user_id = v.user_id) :
    (s.update_user uid' f).users.any (fun v => v.user_id == uid) =
      s.users.any (fun v => v.user_id == uid) := by
  unfold GameState.update_user
  exact any_pred_stable _ _
    (fun v => by by_cases hv : (v.user_id == uid') = true <;> simp [hv, hf]) _

theorem insert_desc_perm (le_key : User → User → Bool) (u : User)
    (l : List User) : (insert_desc le_key u l).Perm (u :: l) := by
  induction l with
  | nil => exact List.Perm.refl _
  | cons v vs ih =>
    unfold insert_desc
    split
    · exact List.Perm.refl _
    · exact ((ih.cons v).trans (List.Perm.swap u v vs))

theorem sort_desc_perm (le_key : User → User → Bool) (l : List User) :
    (sort_desc le_key l).Perm l := by
  induction l with
  | nil => exact List.Perm.refl _
  | cons x xs ih =>
    exact (insert_desc_perm le_key x (sort_desc le_key xs)).trans (ih.cons x)

theorem insert_desc_pairwise (key : User → Int) (u : User) (l : List User)
    (hl : l.Pairwise (fun a b => key b ≤ key a)) :
    (insert_desc (metric_le key) u l).Pairwise (fun a b => key b ≤ key a) := by
  induction l with
  | nil => simp [insert_desc]
  | cons v vs ih =>
    rw [List.pairwise_cons] at hl
    unfold insert_desc
    split
    · next hle =>
      rw [metric_le, decide_eq_true_eq] at hle
      rw [List.pairwise_cons]
      refine ⟨?_, List.pairwise_cons.mpr hl⟩
      intro w hw
      rcases List.mem_cons.mp hw with rfl | hw
      · exact hle
      · exact le_trans (hl.1 w hw) hle
    · next hle =>
      rw [metric_le, decide_eq_true_eq] at hle
      rw [List.pairwise_cons]
      refine ⟨?_, ih hl.2⟩
      intro w hw
      have hw2 := (insert_desc_perm (metric_le key) u vs).mem_iff.mp hw
      rcases List.mem_cons.mp hw2 with rfl | hw2
      · exact le_of_lt (not_le.mp hle)
      · exact hl.1 w hw2

theorem sort_desc_pairwise (key : User → Int) (l : List User) :
    (sort_desc (metric_le key) l).Pairwise (fun a b => key b ≤ key a) := by
  induction l with
  | nil => exact List.Pairwise.nil
  | cons x xs ih => exact insert_desc_pairwise key x _ ih
/-! ## Claim theorems -/

theorem calculate_level_eq_ediv (exp : Int) (h : 0 ≤ exp) :
    calculate_level exp =
      if exp < 500 then exp / 100 + 1
      else if exp < 1500 then 6 + (exp - 500) / 200
      else if exp < 4000 then 11 + (exp - 1500) / 500
      else 16 + (exp - 4000) / 1000 := by
  unfold calculate_level
  rw [Int.fdiv_eq_ediv exp (by norm_num), Int.fdiv_eq_ediv (exp - 500) (by norm_num),
      Int.fdiv_eq_ediv (exp - 1500) (by norm_num),
      Int.fdiv_eq_ediv (exp - 4000) (by norm_num)]
  split_ifs <;> omega

theorem calculate_level_ge_one (exp : Int) (h : 0 ≤ exp) :
    1 ≤ calculate_level exp := by
  rw [calculate_level_eq_ediv exp h]
  split_ifs <;> omega

theorem level_threshold_le (exp : Int) (h : 0 ≤ exp) :
    get_level_exp_requirement (calculate_level exp) ≤ exp := by
  rw [calculate_level_eq_ediv exp h]
  by_cases h1 : exp < 500
  · rw [if_pos h1]
    unfold get_level_exp_requirement
    split_ifs <;> omega
  · by_cases h2 : exp < 1500
    · rw [if_neg h1, if_pos h2]
      unfold get_level_exp_requirement
      split_ifs <;> omega
    · by_cases h3 : exp < 4000
      · rw [if_neg h1, if_neg h2, if_pos h3]
        unfold get_level_exp_requirement
        split_ifs <;> omega
      · rw [if_neg h1, if_neg h2, if_neg h3]
        unfold get_level_exp_requirement
        split_ifs <;> omega

theorem level_threshold_gt (exp : Int) (h : 0 ≤ exp) :
    exp < get_level_exp_requirement (calculate_level exp + 1) := by
  rw [calculate_level_eq_ediv exp h]
  by_cases h1 : exp < 500
  · rw [if_pos h1]
    unfold get_level_exp_requirement
    split_ifs <;> omega
  · by_cases h2 : exp < 1500
    · rw [if_neg h1, if_pos h2]
      unfold get_level_exp_requirement
      split_ifs <;> omega
    · by_cases h3 : exp < 4000
      · rw [if_neg h1, if_neg h2, if_pos h3]
        unfold get_level_exp_requirement
        split_ifs <;> omega
      · rw [if_neg h1, if_neg h2, if_neg h3]
        unfold get_level_exp_requirement
        split_ifs <;> omega

theorem calculate_level_monotone (e1 e2 : Int) (h1 : 0 ≤ e1) (h12 : e1 ≤ e2) :
    calculate_level e1 ≤ calculate_level e2 := by
  rw [calculate_level_eq_ediv e1 h1, calculate_level_eq_ediv e2 (le_trans h1 h12)]
  split_ifs <;> omega

/-- C2: for every experience value `exp ≥ 0`, `_calculate_level` returns a
level at least 1 whose band thresholds (as given by
`get_level_exp_requirement`, the spec's band definition) bracket `exp`,
and the function is monotone in the experience. -/
theorem c2_level_for_experience_bands_and_monotone (exp e1 e2 : Int)
    (hexp : 0 ≤ exp) (h1 : 0 ≤ e1) (h12 : e1 ≤ e2) :
    1 ≤ calculate_level exp ∧
    get_level_exp_requirement (calculate_level exp) ≤ exp ∧
    exp < get_level_exp_requirement (calculate_level exp + 1) ∧
    calculate_level e1 ≤ calculate_level e2 :=
  ⟨calculate_level_ge_one exp hexp, level_threshold_le exp hexp,
   level_threshold_gt exp hexp, calculate_level_monotone e1 e2 h1 h12⟩

/-- Witness for C2 at `exp = 250`, `e1 = 100`, `e2 = 700`. -/
theorem c2_witness :
    1 ≤ calculate_level 250 ∧
    get_level_exp_requirement (calculate_level 250) ≤ 250 ∧
    (250 : Int) < get_level_exp_requirement (calculate_level 250 + 1) ∧
    calculate_level 100 ≤ calculate_level 700 :=
  c2_level_for_experience_bands_and_monotone 250 100 700
    (by decide) (by decide) (by decide)
theorem daily_checkin_consecutive (s : GameState) (uid uname : String)
    (today last_day : Nat) (rb : Int) (u : User)
    (hrec : s.checkin_records.any
      (fun r => r.user_id == uid && r.checkin_date == today) = false)
    (hu : lookup_user s uid = some u)
    (hlast : u.last_checkin = some last_day)
    (hgap : (today : Int) - (last_day : Int) = 1) :
    daily_checkin s uid uname today rb =
      checkin_finalize s uid today u rb (u.checkin_streak + 1) := by
  unfold daily_checkin
  rw [ensure_user_of_exists uname (exists_user_of_lookup hu)]
  simp only [hrec, Bool.false_eq_true, if_false, hu, hlast, hgap, if_pos]

theorem daily_checkin_reset (s : GameState) (uid uname : String)
    (today last_day : Nat) (rb : Int) (u : User)
    (hrec : s.checkin_records.any
      (fun r => r.user_id == uid && r.checkin_date == today) = false)
    (hu : lookup_user s uid = some u)
    (hlast : u.last_checkin = some last_day)
    (hgap : 1 < (today : Int) - (last_day : Int)) :
    daily_checkin s uid uname today rb = checkin_finalize s uid today u rb 1 := by
  unfold daily_checkin
  rw [ensure_user_of_exists uname (exists_user_of_lookup hu)]
  simp only [hrec, Bool.false_eq_true, if_false, hu, hlast]
  rw [if_neg (by omega), if_neg (by omega)]

theorem daily_checkin_no_prior (s : GameState) (uid uname : String)
    (today : Nat) (rb : Int) (u : User)
    (hrec : s.checkin_records.any
      (fun r => r.user_id == uid && r.checkin_date == today) = false)
    (hu : lookup_user s uid = some u)
    (hlast : u.last_checkin = none) :
    daily_checkin s uid uname today rb = checkin_finalize s uid today u rb 1 := by
  unfold daily_checkin
  rw [ensure_user_of_exists uname (exists_user_of_lookup hu)]
  simp only [hrec, Bool.false_eq_true, if_false, hu, hlast]

/-- C4: a checkin exactly one day after the last one increments the streak;
a gap of more than one day resets it to 1, as does a first-ever checkin;
and a second checkin on the same calendar day is rejected with
`already_checked`, leaving the state (and the record log) unchanged. -/
theorem c4_checkin_streak_rules (s : GameState) (today : Nat)
    (uidA unameA uidB unameB uidC unameC : String)
    (rbA rbB rbC rb2 : Int) (uA uB uC : User) (dA dB : Nat)
    (hrecA : s.checkin_records.any
      (fun r => r.user_id == uidA && r.checkin_date == today) = false)
    (huA : lookup_user s uidA = some uA)
    (hlastA : uA.last_checkin = some dA)
    (hgapA : (today : Int) - (dA : Int) = 1)
    (hrecB : s.checkin_records.any
      (fun r => r.user_id == uidB && r.checkin_date == today) = false)
    (huB : lookup_user s uidB = some uB)
    (hlastB : uB.last_checkin = some dB)
    (hgapB : 1 < (today : Int) - (dB : Int))
    (hrecC : s.checkin_records.any
      (fun r => r.user_id == uidC && r.checkin_date == today) = false)
    (huC : lookup_user s uidC = some uC)
    (hlastC : uC.last_checkin = none) :
    (daily_checkin s uidA unameA today rbA).1 =
      .ok (calculate_reward rbA (uA.checkin_streak + 1))
        (uA.money + (calculate_reward rbA (uA.checkin_streak + 1)).total)
        (uA.checkin_streak + 1) (uA.total_checkin + 1) ∧
    (daily_checkin s uidB unameB today rbB).1 =
      .ok (calculate_reward rbB 1) (uB.money + (calculate_reward rbB 1).total)
        1 (uB.total_checkin + 1) ∧
    (daily_checkin s uidC unameC today rbC).1 =
      .ok (calculate_reward rbC 1) (uC.money + (calculate_reward rbC 1).total)
        1 (uC.total_checkin + 1) ∧
    daily_checkin (daily_checkin s uidA unameA today rbA).2 uidA unameA
        today rb2 =
      (.already_checked, (daily_checkin s uidA unameA today rbA).2) := by
  have hA := daily_checkin_consecutive s uidA unameA today dA rbA uA
    hrecA huA hlastA hgapA
  have hB := daily_checkin_reset s uidB unameB today dB rbB uB
    hrecB huB hlastB hgapB
  have hC := daily_checkin_no_prior s uidC unameC today rbC uC
    hrecC huC hlastC
  refine ⟨?_, ?_, ?_, ?_⟩
  · rw [hA]; rfl
  · rw [hB]; rfl
  · rw [hC]; rfl
  · rw [hA]
    have hexists : ((checkin_finalize s uidA today uA rbA
        (uA.checkin_streak + 1)).2).users.any
        (fun v => v.user_id == uidA) = true := by
      simp only [checkin_finalize]
      exact (any_id_update_user s uidA (fun v =>
        { v with
          money := uA.money + (calculate_reward rbA (uA.checkin_streak + 1)).total,
          checkin_streak := uA.checkin_streak + 1,
          total_checkin := uA.total_checkin + 1,
          last_checkin := some today }) uidA (fun v => rfl)).trans
        (exists_user_of_lookup huA)
    unfold daily_checkin
    rw [ensure_user_of_exists unameA hexists]
    simp [checkin_finalize]

/-- Witness account for the checkin scenarios: streak 6, last checkin on
day 9. -/
def w_user_checkin : User :=
  { default_user "alice" "alice" with
    money := 500, checkin_streak := 6, total_checkin := 6,
    last_checkin := some 9 }

/-- Witness account with a 3-day-old last checkin. -/
def w_user_checkin_b : User :=
  { default_user "bob" "bob" with
    money := 40, checkin_streak := 4, total_checkin := 9,
    last_checkin := some 7 }

/-- Witness account that never checked in. -/
def w_user_checkin_c : User :=
  { default_user "carol" "carol" with money := 0 }

/-- Witness ledger for the checkin scenarios. -/
def w_state_checkin : GameState :=
  { users := [w_user_checkin, w_user_checkin_b, w_user_checkin_c],
    bank_transactions := [], work_records := [], checkin_records := [],
    robbery_records := [] }

/-- Witness for C4 on day 10, with draws 25, 0, 50 and 13. -/
theorem c4_witness :
    (daily_checkin w_state_checkin "alice" "alice" 10 25).1 =
      .ok (calculate_reward 25 (w_user_checkin.checkin_streak + 1))
        (w_user_checkin.money +
          (calculate_reward 25 (w_user_checkin.checkin_streak + 1)).total)
        (w_user_checkin.checkin_streak + 1) (w_user_checkin.total_checkin + 1) ∧
    (daily_checkin w_state_checkin "bob" "bob" 10 0).1 =
      .ok (calculate_reward 0 1)
        (w_user_checkin_b.money + (calculate_reward 0 1).total)
        1 (w_user_checkin_b.total_checkin + 1) ∧
    (daily_checkin w_state_checkin "carol" "carol" 10 50).1 =
      .ok (calculate_reward 50 1)
        (w_user_checkin_c.money + (calculate_reward 50 1).total)
        1 (w_user_checkin_c.total_checkin + 1) ∧
    daily_checkin (daily_checkin w_state_checkin "alice" "alice" 10 25).2
        "alice" "alice" 10 13 =
      (.already_checked, (daily_checkin w_state_checkin "alice" "alice" 10 25).2) :=
  c4_checkin_streak_rules w_state_checkin 10 "alice" "alice" "bob" "bob"
    "carol" "carol" 25 0 50 13 w_user_checkin w_user_checkin_b
    w_user_checkin_c 9 7 (by decide) (by decide) (by decide) (by decide)
    (by decide) (by decide) (by decide) (by decide) (by decide) (by decide)
    (by decide)
/-- C5: the checkin reward is `base 100 + random draw + consecutive bonus`,
where the consecutive bonus is that of the highest threshold tier reached
(3→50, 7→200, 15→500, 30→1000, else 0); streak 10 earns the day-7 tier
bonus 200, and a streak-7 checkin credits `100 + draw + 200`; a successful
checkin credits exactly this total to the account. -/
theorem c5_checkin_reward_formula (d rb : Int) (s : GameState)
    (uid uname : String) (today last_day : Nat) (u : User)
    (hrec : s.checkin_records.any
      (fun r => r.user_id == uid && r.checkin_date == today) = false)
    (hu : lookup_user s uid = some u)
    (hlast : u.last_checkin = some last_day)
    (hgap : (today : Int) - (last_day : Int) = 1) :
    consecutive_bonus_for d =
      (if 30 ≤ d then 1000 else if 15 ≤ d then 500 else if 7 ≤ d then 200
       else if 3 ≤ d then 50 else 0) ∧
    calculate_reward rb d =
      { base := 100, random := rb, consecutive := consecutive_bonus_for d,
        total := 100 + rb + consecutive_bonus_for d } ∧
    consecutive_bonus_for 10 = 200 ∧
    (calculate_reward rb 7).total = 100 + rb + 200 ∧
    (daily_checkin s uid uname today rb).1 =
      .ok (calculate_reward rb (u.checkin_streak + 1))
        (u.money + (100 + rb + consecutive_bonus_for (u.checkin_streak + 1)))
        (u.checkin_streak + 1) (u.total_checkin + 1) := by
  refine ⟨?_, rfl, by decide, ?_, ?_⟩
  · unfold consecutive_bonus_for consecutive_bonus_table
    simp only [List.foldl]
  · simp only [calculate_reward, base_reward,
      show consecutive_bonus_for 7 = (200 : Int) from by decide]
  · rw [daily_checkin_consecutive s uid uname today last_day rb u
      hrec hu hlast hgap]
    rfl

/-- Witness for C5 at streak value 10, draw 25, and the day-10 checkin of
the streak-6 account of `w_state_checkin`. -/
theorem c5_witness :
    consecutive_bonus_for 10 =
      (if 30 ≤ (10 : Int) then 1000 else if 15 ≤ (10 : Int) then 500
       else if 7 ≤ (10 : Int) then 200 else if 3 ≤ (10 : Int) then 50
       else 0) ∧
    calculate_reward 25 10 =
      { base := 100, random := 25, consecutive := consecutive_bonus_for 10,
        total := 100 + 25 + consecutive_bonus_for 10 } ∧
    consecutive_bonus_for 10 = 200 ∧
    (calculate_reward 25 7).total = 100 + 25 + 200 ∧
    (daily_checkin w_state_checkin "alice" "alice" 10 25).1 =
      .ok (calculate_reward 25 (w_user_checkin.checkin_streak + 1))
        (w_user_checkin.money +
          (100 + 25 + consecutive_bonus_for (w_user_checkin.checkin_streak + 1)))
        (w_user_checkin.checkin_streak + 1) (w_user_checkin.total_checkin + 1) :=
  c5_checkin_reward_formula 10 25 w_state_checkin "alice" "alice" 10 9
    w_user_checkin (by decide) (by decide) (by decide) (by decide)
/-- The daily interest the loop body of `apply_daily_interest` computes for
a balance: `int(bank_money * rate)` with the VIP rate exactly when
`bank_money ≥ vip_threshold` (lines 469 to 473 of `bank_manager.py`). -/
def daily_interest_of (cfg : BankConfig) (bank_money : Int) : Int :=
  Int.tdiv (bank_money * (if bank_money ≥ cfg.vip_threshold
      then cfg.vip_interest_rate_num else cfg.interest_rate_num))
    (if bank_money ≥ cfg.vip_threshold
      then cfg.vip_interest_rate_den else cfg.interest_rate_den)

/-- C6: `apply_daily_interest` maps every account with positive savings to
`savings + int(savings * rate)` with rate selected by the VIP threshold,
provided the interest is positive, and leaves it unchanged otherwise; the
transaction log grows exactly by the interest records of the accounts that
earned one (one record per credited account, none otherwise). -/
theorem c6_daily_interest (cfg : BankConfig) (s : GameState) (day : Nat)
    (i : Nat) (u : User) (hu : s.users[i]? = some u)
    (hpos : 0 < u.bank_money) :
    (apply_daily_interest cfg s day).1.users[i]? = some
      (if daily_interest_of cfg u.bank_money > 0
       then { u with
              bank_money := u.bank_money + daily_interest_of cfg u.bank_money }
       else u) ∧
    (apply_daily_interest cfg s day).1.bank_transactions =
      s.bank_transactions ++
        (s.users.map (accrue_user cfg day)).filterMap Prod.snd ∧
    (accrue_user cfg day u).2 =
      (if daily_interest_of cfg u.bank_money > 0
       then some
         { user_id := u.user_id, transaction_type := .interest,
           amount := daily_interest_of cfg u.bank_money,
           balance_before := u.bank_money,
           balance_after := u.bank_money + daily_interest_of cfg u.bank_money,
           day := day }
       else none) := by
  refine ⟨?_, rfl, ?_⟩
  · simp only [apply_daily_interest, List.map_map, List.getElem?_map, hu,
      Option.map_some', Function.comp_apply, accrue_user, if_pos hpos,
      daily_interest_of]
    split <;> split <;> rfl
  · simp only [accrue_user, if_pos hpos, daily_interest_of]
    split <;> split <;> rfl

/-- The source-default bank configuration. -/
def w_bank_cfg : BankConfig := {}

/-- Witness account with savings 1000 (below the VIP threshold). -/
def w_user_bank : User :=
  { default_user "dora" "dora" with bank_money := 1000 }

/-- Witness ledger for the interest scenario. -/
def w_state_bank : GameState :=
  { users := [w_user_bank], bank_transactions := [], work_records := [],
    checkin_records := [], robbery_records := [] }

/-- Witness for C6: the spec scenario `savings = 1000`, base rate 1/1000,
interest 1. -/
theorem c6_witness :
    (apply_daily_interest w_bank_cfg w_state_bank 5).1.users[0]? = some
      (if daily_interest_of w_bank_cfg w_user_bank.bank_money > 0
       then { w_user_bank with
              bank_money := w_user_bank.bank_money +
                daily_interest_of w_bank_cfg w_user_bank.bank_money }
       else w_user_bank) ∧
    (apply_daily_interest w_bank_cfg w_state_bank 5).1.bank_transactions =
      w_state_bank.bank_transactions ++
        (w_state_bank.users.map (accrue_user w_bank_cfg 5)).filterMap
          Prod.snd ∧
    (accrue_user w_bank_cfg 5 w_user_bank).2 =
      (if daily_interest_of w_bank_cfg w_user_bank.bank_money > 0
       then some
         { user_id := w_user_bank.user_id,
           transaction_type := .interest,
           amount := daily_interest_of w_bank_cfg w_user_bank.bank_money,
           balance_before := w_user_bank.bank_money,
           balance_after := w_user_bank.bank_money +
             daily_interest_of w_bank_cfg w_user_bank.bank_money,
           day := 5 }
       else none) :=
  c6_daily_interest w_bank_cfg w_state_bank 5 0 w_user_bank
    (by decide) (by decide)
/-- The amount stolen in the success branch of `rob_user`
(lines 145 to 149): the cap when it is below `min_amount`, otherwise
the `randint(min_amount, cap)` draw. -/
def rob_amount_of (cfg : RobberyConfig) (victim_money : Int)
    (rand_fn : Int → Int → Int) : Int :=
  if rob_cap cfg victim_money < cfg.min_amount then rob_cap cfg victim_money
  else rand_fn cfg.min_amount (rob_cap cfg victim_money)

/-- The state written by the success branch of `rob_user`
(lines 151 to 172): robber credited, victim debited, both daily counters
bumped, one success record appended. -/
def rob_success_state (s : GameState) (rid vid : String)
    (now robber_money victim_money amount : Int) : GameState :=
  let s1 := s.update_user rid (fun v =>
    { v with money := robber_money + amount,
             rob_count_today := v.rob_count_today + 1 })
  let s2 := s1.update_user vid (fun v =>
    { v with money := victim_money - amount,
             robbed_count_today := v.robbed_count_today + 1 })
  { s2 with robbery_records := s2.robbery_records ++
      [{ robber_id := rid, victim_id := vid, amount := amount,
         success := true, created_at := now }] }

/-- The state written by the failure branch of `rob_user`
(lines 176 to 204): penalty clamped to the robber's cash, moved to the
victim, one failure record appended carrying the penalty. -/
def rob_failure_state (cfg : RobberyConfig) (s : GameState) (rid vid : String)
    (now robber_money victim_money : Int) : GameState :=
  let penalty_amount := min cfg.failure_penalty robber_money
  let s1 := s.update_user rid (fun v =>
    { v with money := robber_money - penalty_amount,
             rob_count_today := v.rob_count_today + 1 })
  let s2 := s1.update_user vid (fun v =>
    { v with money := victim_money + penalty_amount,
             robbed_count_today := v.robbed_count_today + 1 })
  { s2 with robbery_records := s2.robbery_records ++
      [{ robber_id := rid, victim_id := vid, amount := penalty_amount,
         success := false, created_at := now }] }

/-- C3: a robbery whose draw succeeds, against a victim holding at least
the protection amount, transfers exactly
`cap if cap < min_amount else randint(min_amount, cap)` coins
(`cap = min(max_amount, victim.cash - protection_amount)`) from the
victim's cash to the robber's cash and appends exactly one success record
carrying that amount, all in one state change. -/
theorem c3_robbery_success_transfer (cfg : RobberyConfig) (s : GameState)
    (rid rn vid vn : String) (now : Int) (rf : Int → Int → Int)
    (robber victim : User)
    (hens : (s.ensure_user_named rid rn).ensure_user_named vid vn = s)
    (hne : (rid == vid) = false)
    (hr : lookup_user s rid = some robber)
    (hlev : cfg.level_requirement ≤ robber.level)
    (hcool : (s.robbery_records.filter
      (fun r => r.robber_id == rid)).getLast? = none)
    (hv : lookup_user s vid = some victim)
    (hprot : cfg.protection_amount ≤ victim.money) :
    rob_user cfg s rid rn vid vn now true rf =
      (.done true (rob_amount_of cfg victim.money rf),
       rob_success_state s rid vid now robber.money victim.money
         (rob_amount_of cfg victim.money rf)) := by
  unfold rob_user
  rw [hens]
  simp only [hne, Bool.false_eq_true, if_false, hr]
  rw [if_neg (not_lt.mpr hlev)]
  simp only [hcool]
  simp only [Bool.false_eq_true, if_false, hv]
  rw [if_neg (not_lt.mpr hprot)]
  simp only [eq_self_iff_true, if_true, rob_amount_of, rob_success_state]

/-- Robber account for the robbery witnesses: level 5, cash 100. -/
def w_robber : User :=
  { default_user "eve" "eve" with money := 100, level := 5 }

/-- Victim account for the success scenario: cash 500. -/
def w_victim : User :=
  { default_user "mallory" "mallory" with money := 500 }

/-- Witness ledger for the robbery scenarios. -/
def w_state_rob : GameState :=
  { users := [w_robber, w_victim], bank_transactions := [],
    work_records := [], checkin_records := [], robbery_records := [] }

/-- A `randint` stub that always draws 220. -/
def w_rand220 : Int → Int → Int := fun lo hi => lo + hi - lo - hi + 220

/-- Witness for C3: the spec scenario — victim cash 500, protection 100,
`max_amount` 300, draw 220. -/
theorem c3_witness :
    rob_user {} w_state_rob "eve" "eve" "mallory" "mallory" 7 true
        w_rand220 =
      (.done true (rob_amount_of {} w_victim.money w_rand220),
       rob_success_state w_state_rob "eve" "mallory" 7 w_robber.money
         w_victim.money (rob_amount_of {} w_victim.money w_rand220)) :=
  c3_robbery_success_transfer {} w_state_rob "eve" "eve" "mallory"
    "mallory" 7 w_rand220 w_robber w_victim (by decide) (by decide)
    (by decide) (by decide) (by decide) (by decide) (by decide)
/-- C9: a robbery attempt is rejected as protected exactly when the
victim's cash is strictly below the protection amount — a victim holding
exactly the protection amount is a legal target whose successful robbery
transfers 0 coins (the cap is `min(max_amount, 0) = 0`, below
`min_amount`) — and every successful robbery leaves the victim holding at
least the protection amount. -/
theorem c9_protection_floor (cfg : RobberyConfig) (s : GameState)
    (rid rn vidP vnP vidB vnB : String) (now : Int) (d : Bool)
    (rf : Int → Int → Int) (robber victimP victimB victimG : User)
    (hminpos : 0 < cfg.min_amount) (hmax : 0 ≤ cfg.max_amount)
    (hensP : (s.ensure_user_named rid rn).ensure_user_named vidP vnP = s)
    (hneP : (rid == vidP) = false)
    (hr : lookup_user s rid = some robber)
    (hlev : cfg.level_requirement ≤ robber.level)
    (hcool : (s.robbery_records.filter
      (fun r => r.robber_id == rid)).getLast? = none)
    (hvP : lookup_user s vidP = some victimP)
    (hPlow : victimP.money < cfg.protection_amount)
    (hensB : (s.ensure_user_named rid rn).ensure_user_named vidB vnB = s)
    (hneB : (rid == vidB) = false)
    (hvB : lookup_user s vidB = some victimB)
    (hBeq : victimB.money = cfg.protection_amount)
    (hrf : valid_rand_fn rf)
    (hGprot : cfg.protection_amount ≤ victimG.money) :
    rob_user cfg s rid rn vidP vnP now d rf = (.victim_protected, s) ∧
    rob_user cfg s rid rn vidB vnB now true rf =
      (.done true 0, rob_success_state s rid vidB now robber.money
        victimB.money 0) ∧
    cfg.protection_amount ≤
      victimG.money - rob_amount_of cfg victimG.money rf := by
  refine ⟨?_, ?_, ?_⟩
  · unfold rob_user
    rw [hensP]
    simp only [hneP, Bool.false_eq_true, if_false, hr]
    rw [if_neg (not_lt.mpr hlev)]
    simp only [hcool]
    simp only [Bool.false_eq_true, if_false, hvP]
    rw [if_pos hPlow]
  · have hcap0 : rob_cap cfg victimB.money = 0 := by
      unfold rob_cap
      omega
    unfold rob_user
    rw [hensB]
    simp only [hneB, Bool.false_eq_true, if_false, hr]
    rw [if_neg (not_lt.mpr hlev)]
    simp only [hcool]
    simp only [Bool.false_eq_true, if_false, hvB]
    rw [if_neg (not_lt.mpr (le_of_eq hBeq.symm))]
    simp only [eq_self_iff_true, if_true, hcap0, rob_success_state]
    rw [if_pos hminpos]
  · have hcaple : rob_cap cfg victimG.money ≤
        victimG.money - cfg.protection_amount := min_le_right _ _
    unfold rob_amount_of
    split
    · omega
    · next hge =>
      have hub := (hrf _ _ (not_lt.mp hge)).2
      omega

/-- Victim below the protection floor (cash 50). -/
def w_victim_low : User :=
  { default_user "paula" "paula" with money := 50 }

/-- Victim holding exactly the protection amount (cash 100). -/
def w_victim_boundary : User :=
  { default_user "bert" "bert" with money := 100 }

/-- Witness ledger for the protection scenarios. -/
def w_state_rob9 : GameState :=
  { users := [w_robber, w_victim_low, w_victim_boundary, w_victim],
    bank_transactions := [], work_records := [], checkin_records := [],
    robbery_records := [] }

/-- A faithful `randint` stub drawing the lower bound. -/
def w_rand_min : Int → Int → Int := fun lo hi => min lo hi

theorem w_rand_min_valid : valid_rand_fn w_rand_min := by
  intro lo hi h
  unfold w_rand_min
  exact ⟨by omega, by omega⟩

/-- Witness for C9: protected victim with cash 50, boundary victim with
cash 100, well-funded victim with cash 500. -/
theorem c9_witness :
    rob_user {} w_state_rob9 "eve" "eve" "paula" "paula" 7 false
        w_rand_min = (.victim_protected, w_state_rob9) ∧
    rob_user {} w_state_rob9 "eve" "eve" "bert" "bert" 7 true w_rand_min =
      (.done true 0, rob_success_state w_state_rob9 "eve" "bert" 7
        w_robber.money w_victim_boundary.money 0) ∧
    RobberyConfig.protection_amount {} ≤
      w_victim.money - rob_amount_of {} w_victim.money w_rand_min :=
  c9_protection_floor {} w_state_rob9 "eve" "eve" "paula" "paula" "bert"
    "bert" 7 false w_rand_min w_robber w_victim_low w_victim_boundary
    w_victim (by decide) (by decide) (by decide) (by decide) (by decide)
    (by decide) (by decide) (by decide) (by decide) (by decide) (by decide)
    (by decide) (by decide) w_rand_min_valid (by decide)
/-- The state written by the success path of `work` (lines 286 to 307):
cash and lifetime earnings credited with the salary total, experience and
level updated, one work record appended whose `base_salary` field holds
the randomized draw. -/
def work_success_state (s : GameState) (uid job_name : String) (day : Nat)
    (now : Int) (u : User) (salary : SalaryResult) : GameState :=
  let new_money := u.money + salary.total_earned
  let new_exp := u.exp + salary.exp_reward
  let new_level := calculate_level new_exp
  let s1 := s.update_user uid (fun v =>
    { v with money := new_money, exp := new_exp, level := new_level,
             last_work_time := some now,
             total_earned := v.total_earned + salary.total_earned })
  { s1 with work_records := s1.work_records ++
      [{ user_id := uid, work_type := job_name,
         base_salary := salary.base_salary,
         bonus := salary.level_bonus + salary.luck_bonus,
         total_earned := salary.total_earned, day := day,
         work_time := now }] }

/-- C10: a successful work call appends exactly one record whose
`base_salary` field stores the randomized salary draw (not the catalog's
static base salary), whose `bonus` is `level_bonus + luck_bonus`, and whose
`total_earned` equals `base_salary + bonus`; the same total is what the
call credits to the account's cash and lifetime earnings. -/
theorem c10_work_record_arithmetic (wcfg : WorkConfig) (s : GameState)
    (uid uname job_name : String) (day : Nat) (now rs : Int) (lucky : Bool)
    (job : String × JobConfig) (u : User)
    (hj : jobs.find? (fun j => j.1 == job_name) = some job)
    (hu : lookup_user s uid = some u)
    (hlev : job.2.level_required ≤ u.level)
    (hdaily : today_work_count s uid day < daily_work_limit)
    (hcool : (s.work_records.filter
      (fun r => r.user_id == uid && r.work_type == job_name)).getLast? =
      none) :
    work wcfg s uid uname job_name day now rs lucky =
      (.ok (calculate_salary wcfg job.2 u.level rs lucky)
        (u.money + (calculate_salary wcfg job.2 u.level rs lucky).total_earned)
        (u.exp + (calculate_salary wcfg job.2 u.level rs lucky).exp_reward)
        (calculate_level
          (u.exp + (calculate_salary wcfg job.2 u.level rs lucky).exp_reward))
        (decide (u.level < calculate_level
          (u.exp + (calculate_salary wcfg job.2 u.level rs lucky).exp_reward)))
        (today_work_count s uid day + 1),
       work_success_state s uid job_name day now u
         (calculate_salary wcfg job.2 u.level rs lucky)) ∧
    (calculate_salary wcfg job.2 u.level rs lucky).base_salary = rs ∧
    (calculate_salary wcfg job.2 u.level rs lucky).total_earned =
      (calculate_salary wcfg job.2 u.level rs lucky).base_salary +
      ((calculate_salary wcfg job.2 u.level rs lucky).level_bonus +
       (calculate_salary wcfg job.2 u.level rs lucky).luck_bonus) := by
  refine ⟨?_, rfl, ?_⟩
  · unfold work
    rw [ensure_user_of_exists uname (exists_user_of_lookup hu)]
    simp only [hj, hu]
    rw [if_neg (not_lt.mpr hlev), if_neg (not_le.mpr hdaily)]
    simp only [hcool, Bool.false_eq_true, if_false, work_success_state]
  · simp only [calculate_salary]
    omega

/-- The catalog entry for the level-1 job 搬砖. -/
def w_job : String × JobConfig :=
  ("搬砖", { base_salary := 80, salary_min := 60, salary_max := 120,
             level_required := 1, cooldown_time := 3600, exp_reward := 5 })

/-- Witness worker: level 3, cash 10. -/
def w_worker : User :=
  { default_user "frank" "frank" with money := 10, level := 3, exp := 210 }

/-- Witness ledger for the work scenario. -/
def w_state_work : GameState :=
  { users := [w_worker], bank_transactions := [], work_records := [],
    checkin_records := [], robbery_records := [] }

/-- Witness for C10: a lucky 搬砖 shift with salary draw 77. -/
theorem c10_witness :
    work {} w_state_work "frank" "frank" "搬砖" 3 99 77 true =
      (.ok (calculate_salary {} w_job.2 w_worker.level 77 true)
        (w_worker.money +
          (calculate_salary {} w_job.2 w_worker.level 77 true).total_earned)
        (w_worker.exp +
          (calculate_salary {} w_job.2 w_worker.level 77 true).exp_reward)
        (calculate_level (w_worker.exp +
          (calculate_salary {} w_job.2 w_worker.level 77 true).exp_reward))
        (decide (w_worker.level < calculate_level (w_worker.exp +
          (calculate_salary {} w_job.2 w_worker.level 77 true).exp_reward)))
        (today_work_count w_state_work "frank" 3 + 1),
       work_success_state w_state_work "frank" "搬砖" 3 99 w_worker
         (calculate_salary {} w_job.2 w_worker.level 77 true)) ∧
    (calculate_salary {} w_job.2 w_worker.level 77 true).base_salary = 77 ∧
    (calculate_salary {} w_job.2 w_worker.level 77 true).total_earned =
      (calculate_salary {} w_job.2 w_worker.level 77 true).base_salary +
      ((calculate_salary {} w_job.2 w_worker.level 77 true).level_bonus +
       (calculate_salary {} w_job.2 w_worker.level 77 true).luck_bonus) :=
  c10_work_record_arithmetic {} w_state_work "frank" "frank" "搬砖" 3 99 77
    true w_job w_worker (by decide) (by decide) (by decide) (by decide)
    (by decide)
theorem find?_append_some {α : Type} (p : α → Bool) {l1 : List α} {a : α}
    (h : l1.find? p = some a) (l2 : List α) :
    (l1 ++ l2).find? p = some a := by
  induction l1 with
  | nil => simp at h
  | cons x xs ih =>
    rw [List.cons_append]
    cases hp : p x with
    | true =>
      rw [List.find?_cons_of_pos _ hp] at h
      rw [List.find?_cons_of_pos _ hp]
      exact h
    | false =>
      rw [List.find?_cons_of_neg _ (by simp [hp])] at h
      rw [List.find?_cons_of_neg _ (by simp [hp])]
      exact ih h

theorem find?_append_none {α : Type} (p : α → Bool) {l1 : List α}
    (h : l1.find? p = none) (l2 : List α) :
    (l1 ++ l2).find? p = l2.find? p := by
  induction l1 with
  | nil => rfl
  | cons x xs ih =>
    rw [List.find?_eq_none] at h
    rw [List.cons_append, List.find?_cons_of_neg _ (by simp [h x]),
      ih (List.find?_eq_none.mpr (fun y hy => h y (List.mem_cons_of_mem _ hy)))]

/-- Sender with savings 100; the recipient is absent from the ledger. -/
def w_sender : User :=
  { default_user "alice" "alice" with bank_money := 100 }

/-- Witness ledger for the transfer scenarios: no account for "bob". -/
def w_state_transfer : GameState :=
  { users := [w_sender], bank_transactions := [], work_records := [],
    checkin_records := [], robbery_records := [] }

/-- Counterexample to C7: transferring to an id with no account does not
fail with a recipient-not-found outcome; the recipient row is created on
the fly (the source runs `_ensure_user_exists` on the recipient before the
lookup) and the transfer succeeds. -/
theorem c7_counterexample :
    lookup_user w_state_transfer "bob" = none ∧
    (transfer {} w_state_transfer "alice" "bob" "alice" "bob" 50 0).1 =
      .transfer_ok 50 50 50 ∧
    (transfer {} w_state_transfer "alice" "bob" "alice" "bob" 50 0).1 ≠
      .recipient_not_found := by
  decide

/-- The state written by a committed transfer (lines 395 to 427): debit the
sender's savings, credit the recipient's, append a `transfer_out` and a
`transfer_in` record. -/
def transfer_result_state (s : GameState) (fid tid : String) (day : Nat)
    (from_bank to_bank amount : Int) : GameState :=
  let s1 := s.update_user fid
    (fun v => { v with bank_money := from_bank - amount })
  let s2 := s1.update_user tid
    (fun v => { v with bank_money := to_bank + amount })
  { s2 with bank_transactions := s2.bank_transactions ++
      [{ user_id := fid, transaction_type := .transfer_out, amount := amount,
         balance_before := from_bank, balance_after := from_bank - amount,
         day := day },
       { user_id := tid, transaction_type := .transfer_in, amount := amount,
         balance_before := to_bank, balance_after := to_bank + amount,
         day := day }] }

/-- C7 as amended: when the recipient id has no account at call time,
`transfer` first creates it with default zero balances and then proceeds;
with the amount within bounds and covered by the sender's savings the
transfer succeeds, crediting the freshly created account, instead of
failing with a recipient-not-found outcome. -/
theorem c7_transfer_creates_recipient (cfg : BankConfig) (s : GameState)
    (fid tid fn tn : String) (amount : Int) (day : Nat) (fu : User)
    (hne : (fid == tid) = false)
    (hb1 : cfg.min_deposit ≤ amount) (hb2 : amount ≤ cfg.max_deposit)
    (hfu : lookup_user s fid = some fu)
    (hto : lookup_user s tid = none)
    (hsav : amount ≤ fu.bank_money) :
    transfer cfg s fid tid fn tn amount day =
      (.transfer_ok amount (fu.bank_money - amount)
        ((default_user tid tn).bank_money + amount),
       transfer_result_state
         { s with users := s.users ++ [default_user tid tn] } fid tid day
         fu.bank_money (default_user tid tn).bank_money amount) := by
  have hfu2 : lookup_user
      { s with users := s.users ++ [default_user tid tn] } fid = some fu := by
    unfold lookup_user at hfu ⊢
    exact find?_append_some _ hfu _
  have hto2 : lookup_user
      { s with users := s.users ++ [default_user tid tn] } tid =
      some (default_user tid tn) := by
    unfold lookup_user at hto ⊢
    rw [find?_append_none _ hto]
    simp [default_user]
  unfold transfer
  simp only [hne, Bool.false_eq_true, if_false]
  rw [if_neg (not_lt.mpr hb1), if_neg (not_lt.mpr hb2)]
  rw [ensure_user_of_exists fn (exists_user_of_lookup hfu)]
  unfold GameState.ensure_user
  simp only [lookup_none_not_exists hto, Bool.false_eq_true, if_false]
  simp only [hfu2, hto2]
  rw [if_neg (not_lt.mpr hsav)]
  simp only [transfer_result_state]

/-- Witness for the amended C7: `w_state_transfer` holds no account for
"bob", yet the 50-coin transfer succeeds and credits the new account. -/
theorem c7_witness :
    transfer {} w_state_transfer "alice" "bob" "alice" "bob" 50 0 =
      (.transfer_ok 50 (w_sender.bank_money - 50)
        ((default_user "bob" "bob").bank_money + 50),
       transfer_result_state
         { w_state_transfer with
           users := w_state_transfer.users ++ [default_user "bob" "bob"] }
         "alice" "bob" 0 w_sender.bank_money
         (default_user "bob" "bob").bank_money 50) :=
  c7_transfer_creates_recipient {} w_state_transfer "alice" "bob" "alice"
    "bob" 50 0 w_sender (by decide) (by decide) (by decide) (by decide)
    (by decide) (by decide)
/-- Tied account inserted first in table order (larger id). -/
def w_tie_b : User := { default_user "b" "b" with money := 100 }

/-- Tied account inserted second in table order (smaller id). -/
def w_tie_a : User := { default_user "a" "a" with money := 100 }

/-- Ledger with the tied rows in order `b`, `a`. -/
def w_state_rank1 : GameState :=
  { users := [w_tie_b, w_tie_a], bank_transactions := [], work_records := [],
    checkin_records := [], robbery_records := [] }

/-- Ledger with the same two rows in order `a`, `b`. -/
def w_state_rank2 : GameState :=
  { users := [w_tie_a, w_tie_b], bank_transactions := [], work_records := [],
    checkin_records := [], robbery_records := [] }

/-- Counterexample to C8: two ledgers holding the same two accounts with
equal metric values return the rows in table order, not in a fixed order
decided by account id — so the relative order of ties is not
deterministically decided by account id. -/
theorem c8_counterexample :
    get_ranking_data w_state_rank1 "money" 10 = some [w_tie_b, w_tie_a] ∧
    get_ranking_data w_state_rank2 "money" 10 = some [w_tie_a, w_tie_b] ∧
    w_tie_a.money = w_tie_b.money ∧
    w_tie_a.user_id ≠ w_tie_b.user_id := by
  decide

/-- C8 as amended: `get_ranking_data` returns the positive-metric rows
sorted by the metric descending (each returned row's metric dominates all
later ones) and is a permutation of those rows, but rows with equal metric
values keep their table order — there is no tie-break by account id.  As a
pure function of the ledger it is trivially deterministic. -/
theorem c8_ranking_order (s : GameState) (key : User → Int) (limit : Nat) :
    get_ranking_data s "money" limit =
      some ((sort_desc (metric_le (fun u => u.money))
        (s.users.filter (fun u => decide (0 < u.money)))).take limit) ∧
    (sort_desc (metric_le key)
      (s.users.filter (fun u => decide (0 < key u)))).Perm
      (s.users.filter (fun u => decide (0 < key u))) ∧
    List.Pairwise (fun a b => key b ≤ key a)
      ((sort_desc (metric_le key)
        (s.users.filter (fun u => decide (0 < key u)))).take limit) := by
  refine ⟨rfl, sort_desc_perm _ _, ?_⟩
  exact (sort_desc_pairwise key _).sublist (List.take_sublist _ _)
/-- C1: under sign-correct configuration and faithful random draws, every
sequence of engine operations started from a ledger with nonnegative cash
and savings keeps every account's cash and savings nonnegative; in
particular a bounds-respecting deposit exceeding the cash on hand is
rejected with no state change, a withdrawal or transfer exceeding the
savings is rejected with no state change, and a failed robbery debits the
robber by `min(failure_penalty, robber.cash)`, never more than the cash
held. -/
theorem c1_balances_stay_nonneg (cfg : EngineConfig)
    (hcfg : config_ok cfg) (ops : List Op) (hops : ∀ op ∈ ops, op.valid)
    (s0 : GameState) (h0 : balances_nonneg s0)
    (sD : GameState) (uidD unameD : String) (amtD : Int) (dayD : Nat)
    (uD : User)
    (huD : lookup_user sD uidD = some uD)
    (hb1D : cfg.bank.min_deposit ≤ amtD)
    (hb2D : amtD ≤ cfg.bank.max_deposit)
    (hcashD : uD.money < amtD)
    (sW : GameState) (uidW unameW : String) (amtW : Int) (dayW : Nat)
    (uW : User)
    (huW : lookup_user sW uidW = some uW)
    (hb1W : cfg.bank.min_withdraw ≤ amtW)
    (hb2W : amtW ≤ cfg.bank.max_withdraw)
    (hlimW : today_withdraw_sum sW uidW dayW + amtW ≤
      cfg.bank.daily_withdraw_limit)
    (hsavW : uW.bank_money < amtW)
    (sT : GameState) (fidT tidT fnT tnT : String) (amtT : Int) (dayT : Nat)
    (fuT : User)
    (hneT : (fidT == tidT) = false)
    (hb1T : cfg.bank.min_deposit ≤ amtT)
    (hb2T : amtT ≤ cfg.bank.max_deposit)
    (hensT : (sT.ensure_user fidT fnT).ensure_user tidT tnT = sT)
    (hfuT : lookup_user sT fidT = some fuT)
    (hsavT : fuT.bank_money < amtT)
    (sR : GameState) (ridR rnR vidR vnR : String) (nowR : Int)
    (rfR : Int → Int → Int) (robberR victimR : User)
    (hensR : (sR.ensure_user_named ridR rnR).ensure_user_named vidR vnR = sR)
    (hneR : (ridR == vidR) = false)
    (hrR : lookup_user sR ridR = some robberR)
    (hlevR : cfg.robbery.level_requirement ≤ robberR.level)
    (hcoolR : (sR.robbery_records.filter
      (fun r => r.robber_id == ridR)).getLast? = none)
    (hvR : lookup_user sR vidR = some victimR)
    (hprotR : cfg.robbery.protection_amount ≤ victimR.money) :
    balances_nonneg (run_ops cfg s0 ops) ∧
    deposit cfg.bank sD uidD unameD amtD dayD = (.insufficient_cash, sD) ∧
    withdraw cfg.bank sW uidW unameW amtW dayW = (.insufficient_savings, sW) ∧
    transfer cfg.bank sT fidT tidT fnT tnT amtT dayT =
      (.insufficient_savings, sT) ∧
    rob_user cfg.robbery sR ridR rnR vidR vnR nowR false rfR =
      (.done false 0, rob_failure_state cfg.robbery sR ridR vidR nowR
        robberR.money victimR.money) := by
  refine ⟨run_ops_preserves_nonneg cfg hcfg ops hops s0 h0, ?_, ?_, ?_, ?_⟩
  · unfold deposit
    rw [ensure_user_of_exists unameD (exists_user_of_lookup huD)]
    rw [if_neg (not_lt.mpr hb1D), if_neg (not_lt.mpr hb2D)]
    simp only [huD]
    rw [if_pos hcashD]
  · unfold withdraw
    rw [ensure_user_of_exists unameW (exists_user_of_lookup huW)]
    rw [if_neg (not_lt.mpr hb1W), if_neg (not_lt.mpr hb2W),
      if_neg (not_lt.mpr hlimW)]
    simp only [huW]
    rw [if_pos hsavW]
  · unfold transfer
    simp only [hneT, Bool.false_eq_true, if_false]
    rw [if_neg (not_lt.mpr hb1T), if_neg (not_lt.mpr hb2T)]
    rw [hensT]
    simp only [hfuT]
    rw [if_pos hsavT]
  · unfold rob_user
    rw [hensR]
    simp only [hneR, Bool.false_eq_true, if_false, hrR]
    rw [if_neg (not_lt.mpr hlevR)]
    simp only [hcoolR]
    simp only [Bool.false_eq_true, if_false, hvR]
    rw [if_neg (not_lt.mpr hprotR)]
    simp only [Bool.false_eq_true, if_false, rob_failure_state]

/-- Cash-poor account for the rejection scenarios: cash 5, savings 3. -/
def c1_henry : User :=
  { default_user "henry" "henry" with money := 5, bank_money := 3 }

/-- Transfer recipient for the rejection scenario. -/
def c1_iris : User := default_user "iris" "iris"

/-- Robber for the clamped-penalty scenario: level 5, cash 30. -/
def c1_rex : User :=
  { default_user "rex" "rex" with money := 30, level := 5 }

/-- Robbery victim for the clamped-penalty scenario: cash 500. -/
def c1_vera : User :=
  { default_user "vera" "vera" with money := 500 }

/-- Witness ledger for C1. -/
def w_state_c1 : GameState :=
  { users := [c1_henry, c1_iris, c1_rex, c1_vera], bank_transactions := [],
    work_records := [], checkin_records := [], robbery_records := [] }

/-- Witness for C1: one deposit operation run from the witness ledger plus
all four rejection and clamping scenarios on it. -/
theorem c1_witness :
    balances_nonneg (run_ops default_config w_state_c1
      [Op.deposit_op "henry" "henry" 100 0]) ∧
    deposit default_config.bank w_state_c1 "henry" "henry" 10 0 =
      (.insufficient_cash, w_state_c1) ∧
    withdraw default_config.bank w_state_c1 "henry" "henry" 10 0 =
      (.insufficient_savings, w_state_c1) ∧
    transfer default_config.bank w_state_c1 "henry" "iris" "henry" "iris"
        10 0 = (.insufficient_savings, w_state_c1) ∧
    rob_user default_config.robbery w_state_c1 "rex" "rex" "vera" "vera" 7
        false w_rand_min =
      (.done false 0, rob_failure_state default_config.robbery w_state_c1
        "rex" "vera" 7 c1_rex.money c1_vera.money) :=
  c1_balances_stay_nonneg default_config (by unfold config_ok; decide)
    [Op.deposit_op "henry" "henry" 100 0]
    (fun op hop => by rcases List.mem_singleton.mp hop with rfl; exact trivial)
    w_state_c1 (by unfold balances_nonneg; decide)
    w_state_c1 "henry" "henry" 10 0 c1_henry (by decide) (by decide)
    (by decide) (by decide)
    w_state_c1 "henry" "henry" 10 0 c1_henry (by decide) (by decide)
    (by decide) (by decide) (by decide)
    w_state_c1 "henry" "iris" "henry" "iris" 10 0 c1_henry (by decide)
    (by decide) (by decide) (by decide) (by decide) (by decide)
    w_state_c1 "rex" "rex" "vera" "vera" 7 w_rand_min c1_rex c1_vera
    (by decide) (by decide) (by decide) (by decide) (by decide) (by decide)
    (by decide)
